import Mathlib

/-! Shallow embedding of the nsim CSMA/CD LAN simulator: the circular buffer
(src/cbuffer.rs), the Client, Server and Medium simulators (src/simulators.rs),
and the tick driver loop (src/main.rs).

Modelling conventions, stated once:
* machine integers (`u32`, `usize`) are modelled as `Nat` (none of the
  quantities involved can overflow in the scenarios the theorems exercise);
* the `f64` quantities (`bits_processed`, `pspeed`, `resolution`) are modelled
  as exact rationals; the Rust cast `bits_processed as u32` (truncation toward
  zero of a non-negative float) is modelled as `ratToU32` (floor to `Nat`);
* the arrival generator (the `generators::Generator` capability; the file
  src/generators.rs is not among the sources, spec section 4.2 describes it as
  any object returning the number of ticks to the next arrival) is modelled as
  an injected stream `gen : Nat → Nat` consumed one value per `next_event`
  call, which covers every generator behaviour including returning 0;
* the entropy source `thread_rng().gen_range(lo, hi)` (a value in `[lo, hi)`,
  upper bound exclusive) is modelled by `genRange` applied to one value of an
  injected oracle stream `rand : Nat → Nat` per draw;
* the `assert!` statements of the source (counter == 96, id < num_nodes,
  bitmap length equality) are not modelled as aborts: theorems that depend on
  them carry the corresponding hypotheses instead;
* `vec[idx]` in `CircularBuffer::read` is modelled as `List.getD` with the
  `Inhabited` default; the out-of-range case (a Rust panic) is unreachable for
  every buffer built by `CircularBuffer.new` and stepped by `tick`. -/


/-- Packet, src/simulators.rs lines 8-12: creation time and length in bits. -/
structure Packet where
  time_generated : Nat
  length : Nat
deriving DecidableEq, Repr

/-- CircularBuffer, src/cbuffer.rs: a fixed vector with a head index. -/
structure CircularBuffer (T : Type) where
  vec : List T
  idx : Nat

/-- CircularBuffer::new: `size` copies of the default element, head at 0. -/
def CircularBuffer.new {T : Type} (size : Nat) (dflt : T) : CircularBuffer T :=
  { vec := List.replicate size dflt, idx := 0 }

/-- CircularBuffer::read: the element at the head index. -/
def CircularBuffer.read {T : Type} [Inhabited T] (b : CircularBuffer T) : T :=
  b.vec.getD b.idx default

/-- CircularBuffer::write: replace the element at the head index. -/
def CircularBuffer.write {T : Type} (b : CircularBuffer T) (t : T) : CircularBuffer T :=
  { b with vec := b.vec.set b.idx t }

/-- CircularBuffer::tick: advance the head index modulo the capacity. -/
def CircularBuffer.tick {T : Type} (b : CircularBuffer T) : CircularBuffer T :=
  { b with idx := (b.idx + 1) % b.vec.length }

/-- Medium, src/simulators.rs lines 316-319: a circular buffer of per-tick
activity bitmaps (`BitVec` modelled as `List Bool`) plus the station count. -/
structure Medium where
  tracks : CircularBuffer (List Bool)
  num_nodes : Nat

/-- Medium::new, src/simulators.rs lines 322-327. -/
def Medium.new (num_nodes bsize : Nat) : Medium :=
  { tracks := CircularBuffer.new bsize (List.replicate num_nodes false),
    num_nodes := num_nodes }

/-- Medium::tick, src/simulators.rs lines 329-331. -/
def Medium.tick (m : Medium) : Medium :=
  { m with tracks := m.tracks.tick }

/-- Medium::is_busy, src/simulators.rs lines 333-339: mask out the caller's
own bit, intersect with the head bitmap, and ask whether any bit remains. -/
def Medium.is_busy (m : Medium) (id : Nat) : Bool :=
  let mask := (List.range m.num_nodes).map (fun j => decide (j ≠ id))
  let inter := List.zipWith (fun a b => a && b) mask m.tracks.read
  inter.any (fun b => b)

/-- Medium::write, src/simulators.rs lines 341-344: replace the head bitmap. -/
def Medium.write (m : Medium) (state : List Bool) : Medium :=
  { m with tracks := m.tracks.write state }

/-- Client, src/simulators.rs lines 17-22: a ticker counting down to the next
arrival, refilled from the generator stream. -/
structure Client where
  resolution : Rat
  ticker : Nat
  packet_length : Nat
  gen : Nat → Nat
  gidx : Nat

/-- Client::tick, src/simulators.rs lines 41-61: if the ticker is zero at
entry, reseed it and emit a packet at once; otherwise decrement and emit a
packet exactly when the decrement reaches zero. -/
def Client.tick (c : Client) (current_time : Nat) : Client × Option Packet :=
  if c.ticker = 0 then
    ({ c with ticker := c.gen c.gidx, gidx := c.gidx + 1 },
      some { time_generated := current_time, length := c.packet_length })
  else
    let t := c.ticker - 1
    if t = 0 then
      ({ c with ticker := c.gen c.gidx, gidx := c.gidx + 1 },
        some { time_generated := current_time, length := c.packet_length })
    else
      ({ c with ticker := t }, none)

/-- ServerStatistics, src/simulators.rs lines 66-70. -/
structure ServerStatistics where
  packets_processed : Nat
  packets_generated : Nat
  packets_dropped : Nat
deriving DecidableEq, Repr

/-- ServerState, src/simulators.rs lines 82-103. -/
inductive ServerState where
  | Idle : ServerState
  | Sensing (counter : Nat) (busy : Bool) (current_packet : Packet) : ServerState
  | Transmitting (bits_processed : Rat) (current_packet : Packet) : ServerState
  | Jamming (counter : Nat) (current_packet : Packet) : ServerState
  | Waiting (counter : Nat) (wait_time : Nat) (current_packet : Packet) : ServerState
deriving DecidableEq, Repr

/-- Server, src/simulators.rs lines 106-117, with the entropy stream for
thread_rng draws made explicit. -/
structure Server where
  id : Nat
  client : Client
  queue : List Packet
  resolution : Rat
  statistics : ServerStatistics
  state : ServerState
  persistence : Bool
  pspeed : Rat
  retries : Nat
  rand : Nat → Nat
  ridx : Nat

/-- Model of rand thread_rng().gen_range(lo, hi): some value in `[lo, hi)`
(upper bound exclusive); the oracle value `r` selects which.  The source only
calls it with lo = 0 < hi. -/
def genRange (r lo hi : Nat) : Nat :=
  lo + r % (hi - lo)

/-- The Rust cast `q as u32` for the non-negative float `q`: truncation toward
zero, i.e. the floor. -/
def ratToU32 (q : Rat) : Nat :=
  q.floor.toNat

/-- Outcome of one arm of the `loop { match self.state { ... } }` body of
Server::tick: continue looping, break, or return a completed packet. -/
inductive LoopResult where
  | go (s : Server) (lstate : List Bool) : LoopResult
  | stop (s : Server) (lstate : List Bool) : LoopResult
  | out (s : Server) (lstate : List Bool) (p : Packet) : LoopResult

/-- The server carried by a loop outcome. -/
def LoopResult.server : LoopResult → Server
  | .go s _ => s
  | .stop s _ => s
  | .out s _ _ => s

/-- The local bitmap carried by a loop outcome. -/
def LoopResult.lstate : LoopResult → List Bool
  | .go _ l => l
  | .stop _ l => l
  | .out _ l _ => l

/-- Increment of the packets_dropped counter. -/
def ServerStatistics.addDropped (st : ServerStatistics) : ServerStatistics :=
  { st with packets_dropped := st.packets_dropped + 1 }

/-- Increment of the packets_processed counter. -/
def ServerStatistics.addProcessed (st : ServerStatistics) : ServerStatistics :=
  { st with packets_processed := st.packets_processed + 1 }

/-- Increment of the packets_generated counter. -/
def ServerStatistics.addGenerated (st : ServerStatistics) : ServerStatistics :=
  { st with packets_generated := st.packets_generated + 1 }

/-- One iteration of the match in Server::tick, src/simulators.rs lines
162-293, transcribed arm by arm.  Arms that fall through to the bottom of the
Rust loop (no `break`, no `return`) yield `.go`; `break` yields `.stop`;
`return Some(packet)` yields `.out`. -/
def stepOnce (medium : Medium) (s : Server) (lstate : List Bool) : LoopResult :=
  match s.state with
  | .Idle =>
    match s.queue with
    | packet :: rest =>
      .go { s with queue := rest, state := .Sensing 0 false packet } lstate
    | [] =>
      .stop { s with state := .Idle } lstate
  | .Sensing counter busy current_packet =>
    if counter < 96 then
      .stop { s with state := .Sensing (counter + 1) (medium.is_busy s.id || busy) current_packet } lstate
    else if busy then
      let retries := s.retries + 1
      if retries > 10 then
        .go { s with retries := retries, state := .Idle, statistics := s.statistics.addDropped } lstate
      else
        let wait_time := genRange (s.rand s.ridx) 0 (2 ^ retries - 1) * 512
        let wait_time := if s.persistence then 0 else wait_time
        .go { s with retries := retries, ridx := s.ridx + 1, state := .Waiting 0 wait_time current_packet } lstate
    else
      .go { s with state := .Transmitting 0 current_packet } lstate
  | .Transmitting bits_processed current_packet =>
    if !(medium.is_busy s.id) then
      let bits_processed := bits_processed + s.pspeed / s.resolution
      let lstate := lstate.set s.id true
      if current_packet.length ≤ ratToU32 bits_processed then
        .out { s with statistics := s.statistics.addProcessed, state := .Idle } lstate current_packet
      else
        .stop { s with state := .Transmitting bits_processed current_packet } lstate
    else
      .go { s with state := .Jamming 48 current_packet } lstate
  | .Jamming counter current_packet =>
    let counter := counter - 1
    if counter = 0 then
      let retries := s.retries + 1
      if retries > 10 then
        .go { s with retries := retries, state := .Idle, statistics := s.statistics.addDropped } lstate
      else
        let wait_time := genRange (s.rand s.ridx) 0 (2 ^ retries - 1) * 512
        .go { s with retries := retries, ridx := s.ridx + 1, state := .Waiting 0 wait_time current_packet } lstate
    else
      .go { s with state := .Jamming counter current_packet } lstate
  | .Waiting counter wait_time current_packet =>
    if counter < wait_time then
      .stop { s with state := .Waiting (counter + 1) wait_time current_packet } lstate
    else
      .go { s with state := .Sensing 0 false current_packet } lstate

/-- Upper bound on the number of `.go` outcomes the loop can produce from a
given state: every `.go` strictly decreases this measure (the loop of
Server::tick always terminates). -/
def loopMeasure : ServerState → Nat
  | .Idle => 1
  | .Sensing c _ _ => if c < 96 then 0 else 70
  | .Transmitting _ _ => 60
  | .Jamming c _ => c + 3
  | .Waiting _ _ _ => 2

/-- The `loop` of Server::tick: iterate `stepOnce` until it breaks or
returns.  `fuel` is an embedding artefact: `loopMeasure s.state + 1` calls
always suffice, so the fuel-exhausted branch (returning the current state) is
never taken when the loop is entered with that fuel. -/
def loopGo : Nat → Medium → Server → List Bool → Server × List Bool × Option Packet
  | 0, _, s, lstate => (s, lstate, none)
  | fuel + 1, medium, s, lstate =>
    match stepOnce medium s lstate with
    | .go s' l' => loopGo fuel medium s' l'
    | .stop s' l' => (s', l', none)
    | .out s' l' p => (s', l', some p)

/-- The arrival half of Server::tick, src/simulators.rs lines 158-161: if the
client produced a packet this tick, count it and enqueue it (Server::enqueue,
lines 144-147, pushes at the back of the unbounded queue). -/
def applyGenerated (s : Server) : Option Packet → Server
  | some packet =>
    { s with statistics := s.statistics.addGenerated, queue := s.queue ++ [packet] }
  | none => s

/-- Server::tick, src/simulators.rs lines 152-295: poll the client, then run
the state-machine loop.  Returns the updated server, the updated local bitmap
and the completed packet, if any. -/
def Server.tick (s : Server) (lstate : List Bool) (medium : Medium)
    (current_time : Nat) : Server × List Bool × Option Packet :=
  let c := s.client.tick current_time
  let s1 := applyGenerated { s with client := c.1 } c.2
  loopGo (loopMeasure s1.state + 1) medium s1 lstate

/-- One iteration of the driver loop of main, src/main.rs lines 263-277:
start from an all-zero local bitmap, step every server in order against the
unchanged medium (each server may set its own bit in the local bitmap), then
write the accumulated bitmap into the medium's head slot and advance the
head.  The sojourn-time sampling of returned packets is statistics-only and
not modelled. -/
def driverStep (n : Nat) (servers : List Server) (medium : Medium) (t : Nat) :
    List Server × Medium :=
  let folded := servers.foldl
    (fun (acc : List Server × List Bool) server =>
      let r := server.tick acc.2 medium t
      (acc.1 ++ [r.1], r.2.1))
    ([], List.replicate n false)
  (folded.1, (medium.write folded.2).tick)

/-- Iterate `driverStep` for `k` ticks starting at time `t`. -/
def driverRunFrom (n : Nat) : Nat → Nat → List Server × Medium → List Server × Medium
  | _, 0, sm => sm
  | t, k + 1, sm => driverRunFrom n (t + 1) k (driverStep n sm.1 sm.2 t)

/-- Run the driver for ticks 0, 1, ..., k-1, as main does. -/
def driverRun (n k : Nat) (sm : List Server × Medium) : List Server × Medium :=
  driverRunFrom n 0 k sm

/-- Step a single station for `k` ticks starting at time `t`; the call at
time `j` faces medium `med j` with a fresh all-zero local bitmap, the way the
driver presents them. -/
def stationRunFrom (med : Nat → Medium) : Nat → Nat → Server → Server
  | _, 0, s => s
  | t, k + 1, s =>
    stationRunFrom med (t + 1) k ((s.tick (List.replicate (med t).num_nodes false) (med t) t).1)

/-- Step a single station for ticks 0, 1, ..., k-1. -/
def stationRun (med : Nat → Medium) (s : Server) (k : Nat) : Server :=
  stationRunFrom med 0 k s

/-- Iterate Client.tick for calls at times 0, ..., k-1, counting the packets
generated. -/
def clientRun (c : Client) : Nat → Client × Nat
  | 0 => (c, 0)
  | k + 1 =>
    let r := clientRun c k
    let r2 := r.1.tick k
    (r2.1, r.2 + match r2.2 with | some _ => 1 | none => 0)

/-- Number of packets embedded in the state (0 when Idle, 1 otherwise): a
station has at most one packet in flight. -/
def inFlight : ServerState → Nat
  | .Idle => 0
  | _ => 1

/-- The conservation equation of spec section 8: every generated packet is
processed, dropped, still queued, or in flight. -/
def conserved (s : Server) : Prop :=
  s.statistics.packets_generated =
    s.statistics.packets_processed + s.statistics.packets_dropped +
      s.queue.length + inFlight s.state

/-- The constantly busy two-station medium of spec scenario 3: the peer's bit
(station 1) is set in the single slot, so station 0 always senses traffic. -/
def busyMed : Medium := (Medium.new 2 1).write [false, true]

/-- The packet of the retry-exhaustion run. -/
def c6p : Packet := { time_generated := 0, length := 5 }

/-- Station 0 of the retry-exhaustion run: a fresh 1-persistent server with
one packet queued (already counted in packets_generated) and an arrival
stream too sparse to fire again during the run. -/
def c6s0 : Server :=
  { id := 0,
    client := { resolution := 1000000, ticker := 1000000000, packet_length := 5,
                gen := fun _ => 1000000000, gidx := 0 },
    queue := [c6p], resolution := 1000000,
    statistics := { packets_processed := 0, packets_generated := 1, packets_dropped := 0 },
    state := .Idle, persistence := true, pspeed := 1000000, retries := 0,
    rand := fun _ => 0, ridx := 0 }

/-- The run after the first call: packet popped, first sensing sample taken. -/
def c6s1 : Server :=
  { c6s0 with
    client := { c6s0.client with ticker := 999999999 },
    queue := [], state := .Sensing 1 true c6p }

/-- The run after 1 + 960 calls: ten busy rounds, retries = 10. -/
def c6s961 : Server :=
  { c6s1 with
    client := { c6s1.client with ticker := 999999039 },
    retries := 10, ridx := 10 }

/-- The run after 1 + 960 + 95 calls: the eleventh interframe spacing done. -/
def c6s1056 : Server :=
  { c6s961 with
    client := { c6s961.client with ticker := 999998944 },
    state := .Sensing 96 true c6p }

/-- The run after 1057 calls: retries = 11, packet dropped, back to Idle. -/
def c6end : Server :=
  { c6s1056 with
    client := { c6s1056.client with ticker := 999998943 },
    retries := 11,
    statistics := { packets_processed := 0, packets_generated := 1, packets_dropped := 1 },
    state := .Idle }

/-! The forced-collision scenario of spec scenario 2: two stations pre-seeded
in Transmitting at tick 0 on a fresh medium with the propagation buffer of 26
slots used by main.  The driver trace is fully deterministic; it is proved
one driver tick at a time, each tick by kernel reduction. -/

/-- The (long) packet both colliding stations are transmitting. -/
def c2pkt : Packet := { time_generated := 0, length := 1000000 }

/-- Station i of the collision scenario, bits placed so far and client ticker
given: a non-persistent server mid-transmission with a quiet client. -/
def c2srv (i : Nat) (bits : Rat) (tk : Nat) : Server :=
  { id := i,
    client := { resolution := 1000000, ticker := tk, packet_length := 1000000,
                gen := fun _ => 1000000000, gidx := 0 },
    queue := [], resolution := 1000000,
    statistics := { packets_processed := 0, packets_generated := 0, packets_dropped := 0 },
    state := .Transmitting bits c2pkt, persistence := false, pspeed := 1000000,
    retries := 0, rand := fun _ => 0, ridx := 0 }

/-- The medium after k driver ticks of the collision scenario: the first k
slots hold both stations' bits, the head has moved k slots on. -/
def c2med (k : Nat) : Medium :=
  { tracks := { vec := List.replicate k [true, true] ++ List.replicate (26 - k) [false, false],
                idx := k % 26 },
    num_nodes := 2 }

/-- The whole system after k ≤ 26 driver ticks of the collision scenario. -/
def c2state (k : Nat) : List Server × Medium :=
  ([c2srv 0 (k : Rat) (1000000000 - k), c2srv 1 (k : Rat) (1000000000 - k)], c2med k)

/-- The system after driver tick 26, the tick in which the head of the
26-slot buffer returns to the slot written at tick 0 and both stations
finally observe the collision: both pass through Jamming and come to rest in
the next sensing phase with retries = 1. -/
def c2final : List Server × Medium :=
  ([{ c2srv 0 26 999999973 with retries := 1, ridx := 1, state := .Sensing 1 true c2pkt },
    { c2srv 1 26 999999973 with retries := 1, ridx := 1, state := .Sensing 1 true c2pkt }],
   { tracks := { vec := [false, false] :: List.replicate 25 [true, true], idx := 1 },
     num_nodes := 2 })

/-- A fresh server used to witness the conservation theorem. -/
def c7s0 : Server :=
  { id := 0,
    client := { resolution := 1000000, ticker := 5, packet_length := 9,
                gen := fun _ => 7, gidx := 0 },
    queue := [], resolution := 1000000,
    statistics := { packets_processed := 0, packets_generated := 0, packets_dropped := 0 },
    state := .Idle, persistence := false, pspeed := 1000000, retries := 0,
    rand := fun _ => 0, ridx := 0 }

/-- A concrete client with a bursty all-zero arrival stream. -/
def c10c : Client :=
  { resolution := 1000000, ticker := 0, packet_length := 7, gen := fun _ => 0, gidx := 0 }

/-- The packet used in the single-call failing-input scenarios. -/
def cpkt : Packet := { time_generated := 0, length := 1000000 }

/-- A station template for the single-call scenarios: state, retries and the
entropy stream vary per scenario; the client is quiet. -/
def cSrv (st : ServerState) (retries : Nat) (randv : Nat) : Server :=
  { id := 0,
    client := { resolution := 1000000, ticker := 1000, packet_length := 1000000,
                gen := fun _ => 1000000000, gidx := 0 },
    queue := [], resolution := 1000000,
    statistics := { packets_processed := 0, packets_generated := 0, packets_dropped := 0 },
    state := st, persistence := false, pspeed := 1000000, retries := retries,
    rand := fun _ => randv, ridx := 0 }

/-- The packet of the clear-medium interframe-spacing run. -/
def c9p : Packet := { time_generated := 0, length := 5 }

/-- A fresh station with one queued packet facing a silent medium, used to
witness the interframe-spacing theorem. -/
def c9s0 : Server :=
  { id := 0,
    client := { resolution := 1000000, ticker := 1000000000, packet_length := 5,
                gen := fun _ => 1000000000, gidx := 0 },
    queue := [c9p], resolution := 1000000,
    statistics := { packets_processed := 0, packets_generated := 1, packets_dropped := 0 },
    state := .Idle, persistence := false, pspeed := 1000000, retries := 0,
    rand := fun _ => 0, ridx := 0 }

/-! Theorems: reduction lemmas for single calls and multi-tick runs of the
simulators, followed by the per-claim results. -/

/-- Unfolding lemma: one recursive layer of stationRunFrom. -/
theorem stationRunFrom_succ (med : Nat → Medium) (t k : Nat) (s : Server) :
    stationRunFrom med t (k + 1) s =
      stationRunFrom med (t + 1) k
        ((s.tick (List.replicate (med t).num_nodes false) (med t) t).1) := rfl

/-- Unfolding lemma: stationRunFrom with no calls. -/
theorem stationRunFrom_zero (med : Nat → Medium) (t : Nat) (s : Server) :
    stationRunFrom med t 0 s = s := rfl

/-- Runs of a station compose: a + b calls are a calls then b calls. -/
theorem stationRunFrom_add (med : Nat → Medium) :
    ∀ (a : Nat) (t b : Nat) (s : Server),
      stationRunFrom med t (a + b) s =
        stationRunFrom med (t + a) b (stationRunFrom med t a s) := by
  intro a
  induction a with
  | zero => intro t b s; simp [stationRunFrom_zero]
  | succ m ih =>
    intro t b s
    have h1 : m + 1 + b = (m + b) + 1 := by omega
    rw [h1, stationRunFrom_succ, stationRunFrom_succ, ih]
    have h2 : t + 1 + m = t + (m + 1) := by omega
    rw [h2]

/-- Unfolding lemma: one recursive layer of driverRunFrom. -/
theorem driverRunFrom_succ (n t k : Nat) (sm : List Server × Medium) :
    driverRunFrom n t (k + 1) sm = driverRunFrom n (t + 1) k (driverStep n sm.1 sm.2 t) := rfl

/-- Unfolding lemma: driverRunFrom with no ticks. -/
theorem driverRunFrom_zero (n t : Nat) (sm : List Server × Medium) :
    driverRunFrom n t 0 sm = sm := rfl

/-- A client whose ticker is at least 2 just counts down and generates
nothing this call. -/
theorem clientTick_quiet (c : Client) (t : Nat) (h : 2 ≤ c.ticker) :
    c.tick t = ({ c with ticker := c.ticker - 1 }, none) := by
  obtain ⟨res, tk, pl, g, gi⟩ := c
  simp only at h
  have h1 : ¬ (tk = 0) := by omega
  have h2 : ¬ (tk - 1 = 0) := by omega
  simp [Client.tick, h1, h2]

/-- Server.tick with a quiet client reduces to the state-machine loop on the
server with the decremented ticker. -/
theorem serverTick_quiet (s : Server) (lstate : List Bool) (medium : Medium) (t : Nat)
    (h : 2 ≤ s.client.ticker) :
    s.tick lstate medium t =
      loopGo (loopMeasure s.state + 1) medium
        { s with client := { s.client with ticker := s.client.ticker - 1 } } lstate := by
  simp only [Server.tick, clientTick_quiet s.client t h, applyGenerated]

/-- A quiet call on a Sensing state with counter below 96 samples the medium,
bumps the counter and changes nothing else. -/
theorem tick_sensing_lt (s : Server) (lstate : List Bool) (medium : Medium) (t c : Nat)
    (b : Bool) (p : Packet) (hs : s.state = .Sensing c b p) (hc : c < 96)
    (h : 2 ≤ s.client.ticker) :
    s.tick lstate medium t =
      ({ s with client := { s.client with ticker := s.client.ticker - 1 },
                state := .Sensing (c + 1) (medium.is_busy s.id || b) p }, lstate, none) := by
  rw [serverTick_quiet s lstate medium t h]
  obtain ⟨i, cl, q, res, stats, st, pers, psp, rtr, rnd, ri⟩ := s
  simp only at hs
  subst hs
  simp [loopMeasure, loopGo, stepOnce, hc]

/-- A quiet call on Idle with a queued packet pops it, enters Sensing and
immediately performs the first sample of the interframe spacing. -/
theorem tick_idle_pop (s : Server) (lstate : List Bool) (medium : Medium) (t : Nat)
    (p : Packet) (rest : List Packet) (hs : s.state = .Idle) (hq : s.queue = p :: rest)
    (h : 2 ≤ s.client.ticker) :
    s.tick lstate medium t =
      ({ s with client := { s.client with ticker := s.client.ticker - 1 },
                queue := rest,
                state := .Sensing 1 (medium.is_busy s.id) p }, lstate, none) := by
  rw [serverTick_quiet s lstate medium t h]
  obtain ⟨i, cl, q, res, stats, st, pers, psp, rtr, rnd, ri⟩ := s
  simp only at hs hq
  subst hs
  subst hq
  simp [loopMeasure, loopGo, stepOnce]

/-- A quiet call on Idle with an empty queue only counts the client down. -/
theorem tick_idle_empty (s : Server) (lstate : List Bool) (medium : Medium) (t : Nat)
    (hs : s.state = .Idle) (hq : s.queue = []) (h : 2 ≤ s.client.ticker) :
    s.tick lstate medium t =
      ({ s with client := { s.client with ticker := s.client.ticker - 1 } }, lstate, none) := by
  rw [serverTick_quiet s lstate medium t h]
  obtain ⟨i, cl, q, res, stats, st, pers, psp, rtr, rnd, ri⟩ := s
  simp only at hs hq
  subst hs
  subst hq
  simp [loopMeasure, loopGo, stepOnce]

/-- A quiet call on Sensing at the end of a busy interframe spacing, in
1-persistent mode and below the retry ceiling: the retry counter is bumped,
one oracle value is consumed, the zero wait elapses at once and the next
sensing phase starts with its first sample taken. -/
theorem tick_sensing_cross_persist (s : Server) (lstate : List Bool) (medium : Medium)
    (t c : Nat) (p : Packet) (hs : s.state = .Sensing c true p) (hc : ¬ c < 96)
    (hr : s.retries + 1 ≤ 10) (hp : s.persistence = true) (h : 2 ≤ s.client.ticker) :
    s.tick lstate medium t =
      ({ s with client := { s.client with ticker := s.client.ticker - 1 },
                retries := s.retries + 1,
                ridx := s.ridx + 1,
                state := .Sensing 1 (medium.is_busy s.id) p }, lstate, none) := by
  rw [serverTick_quiet s lstate medium t h]
  obtain ⟨i, cl, q, res, stats, st, pers, psp, rtr, rnd, ri⟩ := s
  simp only at hs hr hp
  subst hs
  subst hp
  have hr10 : ¬ rtr + 1 > 10 := by omega
  simp [loopMeasure, loopGo, stepOnce, hc, hr10]

/-- A quiet call on Sensing at the end of a busy interframe spacing, above
the retry ceiling and with nothing else queued: the packet is dropped and the
station returns to Idle, keeping the oversized retry counter. -/
theorem tick_sensing_cross_drop (s : Server) (lstate : List Bool) (medium : Medium)
    (t c : Nat) (p : Packet) (hs : s.state = .Sensing c true p) (hc : ¬ c < 96)
    (hr : 10 < s.retries + 1) (hq : s.queue = []) (h : 2 ≤ s.client.ticker) :
    s.tick lstate medium t =
      ({ s with client := { s.client with ticker := s.client.ticker - 1 },
                retries := s.retries + 1,
                statistics := s.statistics.addDropped,
                state := .Idle }, lstate, none) := by
  rw [serverTick_quiet s lstate medium t h]
  obtain ⟨i, cl, q, res, stats, st, pers, psp, rtr, rnd, ri⟩ := s
  simp only at hs hr hq
  subst hs
  subst hq
  have hr10 : rtr + 1 > 10 := by omega
  simp [loopMeasure, loopGo, stepOnce, hc, hr10]

/-- A quiet call on Sensing at the end of a clear interframe spacing with the
medium still clear: the station enters Transmitting, places its first bits
and sets its own bit in the local bitmap (the packet being longer than one
tick of bits). -/
theorem tick_sensing_clear_transmit (s : Server) (lstate : List Bool) (medium : Medium)
    (t c : Nat) (p : Packet) (hs : s.state = .Sensing c false p) (hc : ¬ c < 96)
    (hbusy : medium.is_busy s.id = false)
    (hlen : ratToU32 (s.pspeed / s.resolution) < p.length)
    (h : 2 ≤ s.client.ticker) :
    s.tick lstate medium t =
      ({ s with client := { s.client with ticker := s.client.ticker - 1 },
                state := .Transmitting (s.pspeed / s.resolution) p },
        lstate.set s.id true, none) := by
  rw [serverTick_quiet s lstate medium t h]
  obtain ⟨i, cl, q, res, stats, st, pers, psp, rtr, rnd, ri⟩ := s
  simp only at hs hbusy hlen
  subst hs
  have hlen2 : ¬ p.length ≤ ratToU32 (psp / res) := by omega
  simp [loopMeasure, loopGo, stepOnce, hc, hbusy, hlen2]

/-- While the interframe-spacing counter is below 96, k quiet calls keep the
station in Sensing, advancing the counter k times (whatever the medium
samples said): a station sensing never transmits early. -/
theorem stationRunFrom_sensing_any (med : Nat → Medium) :
    ∀ (k t : Nat) (s : Server) (c : Nat) (b : Bool) (p : Packet),
      s.state = .Sensing c b p → c + k ≤ 96 → k + 1 ≤ s.client.ticker →
      ∃ b', stationRunFrom med t k s =
        { s with client := { s.client with ticker := s.client.ticker - k },
                 state := .Sensing (c + k) b' p } := by
  intro k
  induction k with
  | zero =>
    intro t s c b p hs hck htk
    refine ⟨b, ?_⟩
    obtain ⟨i, cl, q, res, stats, st, pers, psp, rtr, rnd, ri⟩ := s
    simp only at hs
    subst hs
    rfl
  | succ k ih =>
    intro t s c b p hs hck htk
    rw [stationRunFrom_succ,
      tick_sensing_lt s _ (med t) t c b p hs (by omega) (by omega)]
    obtain ⟨b', hb'⟩ := ih (t + 1)
      { s with client := { s.client with ticker := s.client.ticker - 1 },
               state := .Sensing (c + 1) ((med t).is_busy s.id || b) p }
      (c + 1) ((med t).is_busy s.id || b) p rfl (by omega) (by simp; omega)
    refine ⟨b', ?_⟩
    rw [hb']
    obtain ⟨i, cl, q, res, stats, st, pers, psp, rtr, rnd, ri⟩ := s
    obtain ⟨cres, ctk, cpl, cg, cgi⟩ := cl
    simp only
    rw [show ctk - 1 - k = ctk - (k + 1) by omega, show c + 1 + k = c + (k + 1) by omega]

/-- k quiet calls on a Sensing phase whose samples are all clear: the
busy-seen flag stays false while the counter climbs. -/
theorem stationRunFrom_sensing_clear (med : Nat → Medium) :
    ∀ (k t : Nat) (s : Server) (c : Nat) (p : Packet),
      s.state = .Sensing c false p → c + k ≤ 96 → k + 1 ≤ s.client.ticker →
      (∀ j, t ≤ j → j < t + k → (med j).is_busy s.id = false) →
      stationRunFrom med t k s =
        { s with client := { s.client with ticker := s.client.ticker - k },
                 state := .Sensing (c + k) false p } := by
  intro k
  induction k with
  | zero =>
    intro t s c p hs hck htk hclear
    obtain ⟨i, cl, q, res, stats, st, pers, psp, rtr, rnd, ri⟩ := s
    simp only at hs
    subst hs
    rfl
  | succ k ih =>
    intro t s c p hs hck htk hclear
    rw [stationRunFrom_succ,
      tick_sensing_lt s _ (med t) t c false p hs (by omega) (by omega)]
    rw [hclear t (by omega) (by omega)]
    rw [ih (t + 1)
      { s with client := { s.client with ticker := s.client.ticker - 1 },
               state := .Sensing (c + 1) (false || false) p }
      (c + 1) p rfl (by omega) (by simp; omega)
      (by intro j h1 h2; simpa using hclear j (by omega) (by omega))]
    obtain ⟨i, cl, q, res, stats, st, pers, psp, rtr, rnd, ri⟩ := s
    obtain ⟨cres, ctk, cpl, cg, cgi⟩ := cl
    simp only
    rw [show ctk - 1 - k = ctk - (k + 1) by omega, show c + 1 + k = c + (k + 1) by omega]

/-- k quiet calls on a Sensing phase whose busy-seen flag is already true:
the flag stays true while the counter climbs. -/
theorem stationRunFrom_sensing_busy (med : Nat → Medium) :
    ∀ (k t : Nat) (s : Server) (c : Nat) (p : Packet),
      s.state = .Sensing c true p → c + k ≤ 96 → k + 1 ≤ s.client.ticker →
      stationRunFrom med t k s =
        { s with client := { s.client with ticker := s.client.ticker - k },
                 state := .Sensing (c + k) true p } := by
  intro k
  induction k with
  | zero =>
    intro t s c p hs hck htk
    obtain ⟨i, cl, q, res, stats, st, pers, psp, rtr, rnd, ri⟩ := s
    simp only at hs
    subst hs
    rfl
  | succ k ih =>
    intro t s c p hs hck htk
    rw [stationRunFrom_succ,
      tick_sensing_lt s _ (med t) t c true p hs (by omega) (by omega)]
    rw [show ((med t).is_busy s.id || true) = true from Bool.or_true _]
    rw [ih (t + 1)
      { s with client := { s.client with ticker := s.client.ticker - 1 },
               state := .Sensing (c + 1) true p }
      (c + 1) p rfl (by omega) (by simp; omega)]
    obtain ⟨i, cl, q, res, stats, st, pers, psp, rtr, rnd, ri⟩ := s
    obtain ⟨cres, ctk, cpl, cg, cgi⟩ := cl
    simp only
    rw [show ctk - 1 - k = ctk - (k + 1) by omega, show c + 1 + k = c + (k + 1) by omega]

/-- k quiet calls on an Idle station with an empty queue change nothing but
the client ticker. -/
theorem stationRunFrom_idle (med : Nat → Medium) :
    ∀ (k t : Nat) (s : Server), s.state = .Idle → s.queue = [] →
      k + 1 ≤ s.client.ticker →
      stationRunFrom med t k s =
        { s with client := { s.client with ticker := s.client.ticker - k } } := by
  intro k
  induction k with
  | zero =>
    intro t s hs hq htk
    rfl
  | succ k ih =>
    intro t s hs hq htk
    rw [stationRunFrom_succ, tick_idle_empty s _ (med t) t hs hq (by omega)]
    rw [ih (t + 1) { s with client := { s.client with ticker := s.client.ticker - 1 } }
      hs hq (by simp; omega)]
    obtain ⟨i, cl, q, res, stats, st, pers, psp, rtr, rnd, ri⟩ := s
    obtain ⟨cres, ctk, cpl, cg, cgi⟩ := cl
    simp only
    rw [show ctk - 1 - k = ctk - (k + 1) by omega]

/-- One full backoff round against a persistently busy medium in 1-persistent
mode, below the retry ceiling: 95 quiet sensing calls climb the counter from
1 to 96, and the 96th call bumps the retry counter, consumes one oracle
value, skips the zero wait and starts the next sensing phase. -/
theorem stationRunFrom_round_busy (m : Medium) :
    ∀ (t : Nat) (s : Server) (p : Packet),
      s.state = .Sensing 1 true p → m.is_busy s.id = true →
      s.retries + 1 ≤ 10 → s.persistence = true → 97 ≤ s.client.ticker →
      stationRunFrom (fun _ => m) t 96 s =
        { s with client := { s.client with ticker := s.client.ticker - 96 },
                 retries := s.retries + 1, ridx := s.ridx + 1,
                 state := .Sensing 1 true p } := by
  intro t s p hs hbusy hr hp htk
  show stationRunFrom (fun _ => m) t (95 + 1) s = _
  rw [stationRunFrom_add (fun _ => m) 95 t 1 s]
  rw [stationRunFrom_sensing_busy (fun _ => m) 95 t s 1 p hs (by omega) (by omega)]
  rw [stationRunFrom_succ, stationRunFrom_zero]
  rw [tick_sensing_cross_persist _ _ m _ 96 p rfl (by omega) (by simpa using hr)
    (by simpa using hp) (by simp; omega)]
  obtain ⟨i, cl, q, res, stats, st, pers, psp, rtr, rnd, ri⟩ := s
  obtain ⟨cres, ctk, cpl, cg, cgi⟩ := cl
  simp only at hbusy ⊢
  rw [hbusy, show ctk - 95 - 1 = ctk - 96 by omega]

/-- j consecutive backoff rounds against a persistently busy medium in
1-persistent mode: the retry counter climbs by j. -/
theorem stationRunFrom_rounds_busy (m : Medium) :
    ∀ (j t : Nat) (s : Server) (p : Packet),
      s.state = .Sensing 1 true p → m.is_busy s.id = true →
      s.retries + j ≤ 10 → s.persistence = true → 96 * j + 1 ≤ s.client.ticker →
      stationRunFrom (fun _ => m) t (96 * j) s =
        { s with client := { s.client with ticker := s.client.ticker - 96 * j },
                 retries := s.retries + j, ridx := s.ridx + j,
                 state := .Sensing 1 true p } := by
  intro j
  induction j with
  | zero =>
    intro t s p hs hbusy hr hp htk
    obtain ⟨i, cl, q, res, stats, st, pers, psp, rtr, rnd, ri⟩ := s
    simp only at hs
    subst hs
    rfl
  | succ j ih =>
    intro t s p hs hbusy hr hp htk
    rw [show 96 * (j + 1) = 96 + 96 * j by omega]
    rw [stationRunFrom_add (fun _ => m) 96 t (96 * j) s]
    rw [stationRunFrom_round_busy m t s p hs hbusy (by omega) hp (by omega)]
    rw [ih (t + 96)
      { s with client := { s.client with ticker := s.client.ticker - 96 },
               retries := s.retries + 1, ridx := s.ridx + 1,
               state := .Sensing 1 true p }
      p rfl (by simpa using hbusy) (by simp; omega) (by simpa using hp) (by simp; omega)]
    obtain ⟨i, cl, q, res, stats, st, pers, psp, rtr, rnd, ri⟩ := s
    obtain ⟨cres, ctk, cpl, cg, cgi⟩ := cl
    simp only
    rw [show ctk - 96 - 96 * j = ctk - (96 + 96 * j) by omega,
      show rtr + 1 + j = rtr + (j + 1) by omega,
      show ri + 1 + j = ri + (j + 1) by omega]

/-- Retry-exhaustion run, call 1: the packet is popped and sensing begins. -/
theorem c6e1 : stationRunFrom (fun _ => busyMed) 0 1 c6s0 = c6s1 := by
  rw [stationRunFrom_succ, stationRunFrom_zero,
    tick_idle_pop c6s0 _ busyMed 0 c6p [] rfl rfl (by decide)]
  rw [show busyMed.is_busy c6s0.id = true by decide]
  rfl

/-- Retry-exhaustion run, calls 2-961: ten busy backoff rounds. -/
theorem c6e2 : stationRunFrom (fun _ => busyMed) 1 960 c6s1 = c6s961 := by
  show stationRunFrom (fun _ => busyMed) 1 (96 * 10) c6s1 = c6s961
  rw [stationRunFrom_rounds_busy busyMed 10 1 c6s1 c6p rfl (by decide) (by decide) rfl
    (by decide)]
  rfl

/-- Retry-exhaustion run, calls 962-1056: the eleventh interframe spacing. -/
theorem c6e3 : stationRunFrom (fun _ => busyMed) 961 95 c6s961 = c6s1056 := by
  rw [stationRunFrom_sensing_busy (fun _ => busyMed) 95 961 c6s961 1 c6p rfl (by decide)
    (by decide)]
  rfl

/-- Retry-exhaustion run, call 1057: retries reaches 11 and the packet drops. -/
theorem c6e4 : stationRunFrom (fun _ => busyMed) 1056 1 c6s1056 = c6end := by
  rw [stationRunFrom_succ, stationRunFrom_zero,
    tick_sensing_cross_drop c6s1056 _ busyMed 1056 96 c6p rfl (by decide) (by decide) rfl
    (by decide)]
  rfl

/-- Retry-exhaustion run, all 1057 calls composed. -/
theorem c6run1057 : stationRunFrom (fun _ => busyMed) 0 1057 c6s0 = c6end := by
  show stationRunFrom (fun _ => busyMed) 0 (1 + (960 + (95 + 1))) c6s0 = c6end
  rw [stationRunFrom_add (fun _ => busyMed) 1 0 (960 + (95 + 1)) c6s0, c6e1]
  show stationRunFrom (fun _ => busyMed) 1 (960 + (95 + 1)) c6s1 = c6end
  rw [stationRunFrom_add (fun _ => busyMed) 960 1 (95 + 1) c6s1, c6e2]
  show stationRunFrom (fun _ => busyMed) 961 (95 + 1) c6s961 = c6end
  rw [stationRunFrom_add (fun _ => busyMed) 95 961 1 c6s961, c6e3]
  show stationRunFrom (fun _ => busyMed) 1056 1 c6s1056 = c6end
  exact c6e4

/-- Retry-exhaustion run plus three idle calls: retries stays at 11. -/
theorem c6run1060 :
    stationRunFrom (fun _ => busyMed) 0 1060 c6s0 =
      { c6end with client := { c6end.client with ticker := 999998940 } } := by
  show stationRunFrom (fun _ => busyMed) 0 (1057 + 3) c6s0 = _
  rw [stationRunFrom_add (fun _ => busyMed) 1057 0 3 c6s0, c6run1057]
  rw [stationRunFrom_idle (fun _ => busyMed) 3 (0 + 1057) c6end rfl rfl (by decide)]
  rfl

/-- C9: a station whose packet enters Sensing at tick t0 (popped from the
queue with counter = 0) performs the full interframe-spacing sense.  After n
calls (1 ≤ n ≤ 96) it is still in Sensing with counter n whatever the medium
samples said — in particular it is never in Transmitting before tick
t0 + 96 — and if no sampled tick of the phase observed foreign activity, the
busy-seen flag is still false at every such n, and at tick t0 + 96 (the 97th
call) the station transitions to Transmitting, here observed at the end of
that call with the medium still clear and the packet longer than one tick of
bits. -/
theorem c9_ifs_full_sense (med : Nat → Medium) (s0 : Server) (pkt : Packet)
    (rest : List Packet) (hstate : s0.state = .Idle) (hqueue : s0.queue = pkt :: rest)
    (hticker : 98 ≤ s0.client.ticker) :
    (∀ n, 1 ≤ n → n ≤ 96 → ∃ b, (stationRun med s0 n).state = .Sensing n b pkt) ∧
    ((∀ k, k < 96 → (med k).is_busy s0.id = false) →
      (∀ n, 1 ≤ n → n ≤ 96 → (stationRun med s0 n).state = .Sensing n false pkt) ∧
      ((med 96).is_busy s0.id = false →
        ratToU32 (s0.pspeed / s0.resolution) < pkt.length →
        (stationRun med s0 97).state = .Transmitting (s0.pspeed / s0.resolution) pkt)) := by
  constructor
  · intro n h1 hn
    rw [stationRun, show n = 1 + (n - 1) by omega,
      stationRunFrom_add med 1 0 (n - 1) s0,
      stationRunFrom_succ, stationRunFrom_zero,
      tick_idle_pop s0 _ (med 0) 0 pkt rest hstate hqueue (by omega)]
    obtain ⟨b', hb'⟩ := stationRunFrom_sensing_any med (n - 1) (0 + 1)
      { s0 with client := { s0.client with ticker := s0.client.ticker - 1 },
                queue := rest, state := .Sensing 1 ((med 0).is_busy s0.id) pkt }
      1 ((med 0).is_busy s0.id) pkt rfl (by omega) (by simp; omega)
    rw [hb']
    exact ⟨b', rfl⟩
  intro hclear
  constructor
  · intro n h1 hn
    rw [stationRun, show n = 1 + (n - 1) by omega,
      stationRunFrom_add med 1 0 (n - 1) s0,
      stationRunFrom_succ, stationRunFrom_zero,
      tick_idle_pop s0 _ (med 0) 0 pkt rest hstate hqueue (by omega),
      hclear 0 (by omega),
      stationRunFrom_sensing_clear med (n - 1) (0 + 1)
        { s0 with client := { s0.client with ticker := s0.client.ticker - 1 },
                  queue := rest, state := .Sensing 1 false pkt }
        1 pkt rfl (by omega) (by simp; omega)
        (by intro j hj1 hj2; simp only; exact hclear j (by omega))]
  · intro hb96 hlen
    have e1 : stationRunFrom med 0 1 s0 =
        { s0 with client := { s0.client with ticker := s0.client.ticker - 1 },
                  queue := rest, state := .Sensing 1 false pkt } := by
      rw [stationRunFrom_succ med 0 0 s0, stationRunFrom_zero,
        tick_idle_pop s0 _ (med 0) 0 pkt rest hstate hqueue (by omega),
        hclear 0 (by omega)]
    have e2 : stationRunFrom med (0 + 1) 95
        { s0 with client := { s0.client with ticker := s0.client.ticker - 1 },
                  queue := rest, state := .Sensing 1 false pkt } =
        { s0 with client := { s0.client with ticker := s0.client.ticker - 1 - 95 },
                  queue := rest, state := .Sensing (1 + 95) false pkt } := by
      rw [stationRunFrom_sensing_clear med 95 (0 + 1) _ 1 pkt rfl (by omega)
        (by simp; omega)
        (by intro j hj1 hj2; simp only; exact hclear j (by omega))]
    rw [stationRun, show (97 : Nat) = (1 + 95) + 1 from rfl,
      stationRunFrom_add med (1 + 95) 0 1 s0,
      stationRunFrom_add med 1 0 95 s0, e1, e2,
      stationRunFrom_succ med (0 + (1 + 95)) 0 _, stationRunFrom_zero]
    rw [tick_sensing_clear_transmit _ _ (med (0 + (1 + 95))) (0 + (1 + 95)) (1 + 95) pkt rfl
      (by omega) (by simpa using hb96) (by simpa using hlen) (by simp; omega)]

set_option maxRecDepth 2000 in
/-- Driver tick 0 of the collision scenario: both stations still sense a
clear head slot, keep transmitting and place their bits. -/
theorem c2step0 :
    driverStep 2 (c2state 0).1 (c2state 0).2 0 = c2state 1 := by
  with_unfolding_all rfl

set_option maxRecDepth 2000 in
/-- Driver tick 1 of the collision scenario: both stations still sense a
clear head slot, keep transmitting and place their bits. -/
theorem c2step1 :
    driverStep 2 (c2state 1).1 (c2state 1).2 1 = c2state 2 := by
  with_unfolding_all rfl

set_option maxRecDepth 2000 in
/-- Driver tick 2 of the collision scenario: both stations still sense a
clear head slot, keep transmitting and place their bits. -/
theorem c2step2 :
    driverStep 2 (c2state 2).1 (c2state 2).2 2 = c2state 3 := by
  with_unfolding_all rfl

set_option maxRecDepth 2000 in
/-- Driver tick 3 of the collision scenario: both stations still sense a
clear head slot, keep transmitting and place their bits. -/
theorem c2step3 :
    driverStep 2 (c2state 3).1 (c2state 3).2 3 = c2state 4 := by
  with_unfolding_all rfl

set_option maxRecDepth 2000 in
/-- Driver tick 4 of the collision scenario: both stations still sense a
clear head slot, keep transmitting and place their bits. -/
theorem c2step4 :
    driverStep 2 (c2state 4).1 (c2state 4).2 4 = c2state 5 := by
  with_unfolding_all rfl

set_option maxRecDepth 2000 in
/-- Driver tick 5 of the collision scenario: both stations still sense a
clear head slot, keep transmitting and place their bits. -/
theorem c2step5 :
    driverStep 2 (c2state 5).1 (c2state 5).2 5 = c2state 6 := by
  with_unfolding_all rfl

set_option maxRecDepth 2000 in
/-- Driver tick 6 of the collision scenario: both stations still sense a
clear head slot, keep transmitting and place their bits. -/
theorem c2step6 :
    driverStep 2 (c2state 6).1 (c2state 6).2 6 = c2state 7 := by
  with_unfolding_all rfl

set_option maxRecDepth 2000 in
/-- Driver tick 7 of the collision scenario: both stations still sense a
clear head slot, keep transmitting and place their bits. -/
theorem c2step7 :
    driverStep 2 (c2state 7).1 (c2state 7).2 7 = c2state 8 := by
  with_unfolding_all rfl

set_option maxRecDepth 2000 in
/-- Driver tick 8 of the collision scenario: both stations still sense a
clear head slot, keep transmitting and place their bits. -/
theorem c2step8 :
    driverStep 2 (c2state 8).1 (c2state 8).2 8 = c2state 9 := by
  with_unfolding_all rfl

set_option maxRecDepth 2000 in
/-- Driver tick 9 of the collision scenario: both stations still sense a
clear head slot, keep transmitting and place their bits. -/
theorem c2step9 :
    driverStep 2 (c2state 9).1 (c2state 9).2 9 = c2state 10 := by
  with_unfolding_all rfl

set_option maxRecDepth 2000 in
/-- Driver tick 10 of the collision scenario: both stations still sense a
clear head slot, keep transmitting and place their bits. -/
theorem c2step10 :
    driverStep 2 (c2state 10).1 (c2state 10).2 10 = c2state 11 := by
  with_unfolding_all rfl

set_option maxRecDepth 2000 in
/-- Driver tick 11 of the collision scenario: both stations still sense a
clear head slot, keep transmitting and place their bits. -/
theorem c2step11 :
    driverStep 2 (c2state 11).1 (c2state 11).2 11 = c2state 12 := by
  with_unfolding_all rfl

set_option maxRecDepth 2000 in
/-- Driver tick 12 of the collision scenario: both stations still sense a
clear head slot, keep transmitting and place their bits. -/
theorem c2step12 :
    driverStep 2 (c2state 12).1 (c2state 12).2 12 = c2state 13 := by
  with_unfolding_all rfl

set_option maxRecDepth 2000 in
/-- Driver tick 13 of the collision scenario: both stations still sense a
clear head slot, keep transmitting and place their bits. -/
theorem c2step13 :
    driverStep 2 (c2state 13).1 (c2state 13).2 13 = c2state 14 := by
  with_unfolding_all rfl

set_option maxRecDepth 2000 in
/-- Driver tick 14 of the collision scenario: both stations still sense a
clear head slot, keep transmitting and place their bits. -/
theorem c2step14 :
    driverStep 2 (c2state 14).1 (c2state 14).2 14 = c2state 15 := by
  with_unfolding_all rfl

set_option maxRecDepth 2000 in
/-- Driver tick 15 of the collision scenario: both stations still sense a
clear head slot, keep transmitting and place their bits. -/
theorem c2step15 :
    driverStep 2 (c2state 15).1 (c2state 15).2 15 = c2state 16 := by
  with_unfolding_all rfl

set_option maxRecDepth 2000 in
/-- Driver tick 16 of the collision scenario: both stations still sense a
clear head slot, keep transmitting and place their bits. -/
theorem c2step16 :
    driverStep 2 (c2state 16).1 (c2state 16).2 16 = c2state 17 := by
  with_unfolding_all rfl

set_option maxRecDepth 2000 in
/-- Driver tick 17 of the collision scenario: both stations still sense a
clear head slot, keep transmitting and place their bits. -/
theorem c2step17 :
    driverStep 2 (c2state 17).1 (c2state 17).2 17 = c2state 18 := by
  with_unfolding_all rfl

set_option maxRecDepth 2000 in
/-- Driver tick 18 of the collision scenario: both stations still sense a
clear head slot, keep transmitting and place their bits. -/
theorem c2step18 :
    driverStep 2 (c2state 18).1 (c2state 18).2 18 = c2state 19 := by
  with_unfolding_all rfl

set_option maxRecDepth 2000 in
/-- Driver tick 19 of the collision scenario: both stations still sense a
clear head slot, keep transmitting and place their bits. -/
theorem c2step19 :
    driverStep 2 (c2state 19).1 (c2state 19).2 19 = c2state 20 := by
  with_unfolding_all rfl

set_option maxRecDepth 2000 in
/-- Driver tick 20 of the collision scenario: both stations still sense a
clear head slot, keep transmitting and place their bits. -/
theorem c2step20 :
    driverStep 2 (c2state 20).1 (c2state 20).2 20 = c2state 21 := by
  with_unfolding_all rfl

set_option maxRecDepth 2000 in
/-- Driver tick 21 of the collision scenario: both stations still sense a
clear head slot, keep transmitting and place their bits. -/
theorem c2step21 :
    driverStep 2 (c2state 21).1 (c2state 21).2 21 = c2state 22 := by
  with_unfolding_all rfl

set_option maxRecDepth 2000 in
/-- Driver tick 22 of the collision scenario: both stations still sense a
clear head slot, keep transmitting and place their bits. -/
theorem c2step22 :
    driverStep 2 (c2state 22).1 (c2state 22).2 22 = c2state 23 := by
  with_unfolding_all rfl

set_option maxRecDepth 2000 in
/-- Driver tick 23 of the collision scenario: both stations still sense a
clear head slot, keep transmitting and place their bits. -/
theorem c2step23 :
    driverStep 2 (c2state 23).1 (c2state 23).2 23 = c2state 24 := by
  with_unfolding_all rfl

set_option maxRecDepth 2000 in
/-- Driver tick 24 of the collision scenario: both stations still sense a
clear head slot, keep transmitting and place their bits. -/
theorem c2step24 :
    driverStep 2 (c2state 24).1 (c2state 24).2 24 = c2state 25 := by
  with_unfolding_all rfl

set_option maxRecDepth 2000 in
/-- Driver tick 25 of the collision scenario: both stations still sense a
clear head slot, keep transmitting and place their bits. -/
theorem c2step25 :
    driverStep 2 (c2state 25).1 (c2state 25).2 25 = c2state 26 := by
  with_unfolding_all rfl

set_option maxRecDepth 2000 in
/-- Driver tick 26 of the collision scenario: the head slot now holds the
bitmap written at tick 0, both stations see is_busy and collide. -/
theorem c2step26 :
    driverStep 2 (c2state 26).1 (c2state 26).2 26 = c2final := by
  with_unfolding_all rfl

/-- The collision scenario run for the first 26 driver ticks. -/
theorem c2run26 : driverRun 2 26 (c2state 0) = c2state 26 := by
  rw [driverRun, driverRunFrom_succ, c2step0, driverRunFrom_succ, c2step1, driverRunFrom_succ, c2step2, driverRunFrom_succ, c2step3, driverRunFrom_succ, c2step4, driverRunFrom_succ, c2step5, driverRunFrom_succ, c2step6, driverRunFrom_succ, c2step7, driverRunFrom_succ, c2step8, driverRunFrom_succ, c2step9, driverRunFrom_succ, c2step10, driverRunFrom_succ, c2step11, driverRunFrom_succ, c2step12, driverRunFrom_succ, c2step13, driverRunFrom_succ, c2step14, driverRunFrom_succ, c2step15, driverRunFrom_succ, c2step16, driverRunFrom_succ, c2step17, driverRunFrom_succ, c2step18, driverRunFrom_succ, c2step19, driverRunFrom_succ, c2step20, driverRunFrom_succ, c2step21, driverRunFrom_succ, c2step22, driverRunFrom_succ, c2step23, driverRunFrom_succ, c2step24, driverRunFrom_succ, c2step25, driverRunFrom_zero]

/-- The collision scenario run for 27 driver ticks. -/
theorem c2run27 : driverRun 2 27 (c2state 0) = c2final := by
  rw [driverRun, driverRunFrom_succ, c2step0, driverRunFrom_succ, c2step1, driverRunFrom_succ, c2step2, driverRunFrom_succ, c2step3, driverRunFrom_succ, c2step4, driverRunFrom_succ, c2step5, driverRunFrom_succ, c2step6, driverRunFrom_succ, c2step7, driverRunFrom_succ, c2step8, driverRunFrom_succ, c2step9, driverRunFrom_succ, c2step10, driverRunFrom_succ, c2step11, driverRunFrom_succ, c2step12, driverRunFrom_succ, c2step13, driverRunFrom_succ, c2step14, driverRunFrom_succ, c2step15, driverRunFrom_succ, c2step16, driverRunFrom_succ, c2step17, driverRunFrom_succ, c2step18, driverRunFrom_succ, c2step19, driverRunFrom_succ, c2step20, driverRunFrom_succ, c2step21, driverRunFrom_succ, c2step22, driverRunFrom_succ, c2step23, driverRunFrom_succ, c2step24, driverRunFrom_succ, c2step25, driverRunFrom_succ, c2step26, driverRunFrom_zero]

/-- C2 (counterexample): at driver tick 0 both pre-seeded transmitters place
their bits — the written slot holds [true, true] — yet neither observes the
other: both leave the tick still in Transmitting with retries = 0, not in
Jamming, because the driver writes the merged bitmap to the medium only after
every station has stepped.  This refutes same-tick collision detection. -/
theorem c2_counterexample_no_same_tick_detection :
    (driverRun 2 1 (c2state 0)).1.map (fun s => (s.state, s.retries)) =
      [(.Transmitting 1 c2pkt, 0), (.Transmitting 1 c2pkt, 0)] ∧
    (driverRun 2 1 (c2state 0)).2.tracks.vec.getD 0 [] = [true, true] := by
  have h : driverRun 2 1 (c2state 0) = c2state 1 := by
    rw [driverRun, driverRunFrom_succ, c2step0, driverRunFrom_zero]
  rw [h]
  exact ⟨by with_unfolding_all rfl, by with_unfolding_all rfl⟩

/-- C2 (amended): the overlap that begins at tick 0 stays invisible while the
buffer head walks the 26 slots — after 26 driver ticks both stations are
still in Transmitting with retries = 0 — and becomes visible in driver tick
26, when the head returns to the slot written at tick 0: during that tick
both stations see is_busy, enter Jamming (which the code resolves within the
same call) and leave the tick with retries = 1. -/
theorem c2_collision_detected_after_delay :
    (driverRun 2 26 (c2state 0)).1.map (fun s => (s.state, s.retries)) =
      [(.Transmitting 26 c2pkt, 0), (.Transmitting 26 c2pkt, 0)] ∧
    (driverRun 2 27 (c2state 0)).1.map (fun s => (s.state, s.retries)) =
      [(.Sensing 1 true c2pkt, 1), (.Sensing 1 true c2pkt, 1)] := by
  rw [c2run26, c2run27]
  exact ⟨by with_unfolding_all rfl, by with_unfolding_all rfl⟩

/-- One arm of the Server::tick loop preserves the conservation equation. -/
theorem stepOnce_conserved (medium : Medium) (s : Server) (lstate : List Bool)
    (h : conserved s) : conserved (stepOnce medium s lstate).server := by
  obtain ⟨i, cl, q, res, stats, st, pers, psp, rtr, rnd, ri⟩ := s
  obtain ⟨sp, sg, sd⟩ := stats
  unfold conserved at h ⊢
  cases st with
  | Idle =>
    cases q with
    | nil => simpa [stepOnce, LoopResult.server, inFlight] using h
    | cons p rest =>
      simp only [stepOnce, LoopResult.server, inFlight, List.length_cons] at h ⊢
      simp at h ⊢
      omega
  | Sensing c b p =>
    simp only [stepOnce]
    split
    · simpa [LoopResult.server, inFlight] using h
    · split
      · split
        · simp only [LoopResult.server, inFlight, ServerStatistics.addDropped] at h ⊢
          simp at h ⊢
          omega
        · simpa [LoopResult.server, inFlight] using h
      · simpa [LoopResult.server, inFlight] using h
  | Transmitting bits p =>
    simp only [stepOnce]
    split
    · split
      · simp only [LoopResult.server, inFlight, ServerStatistics.addProcessed] at h ⊢
        simp at h ⊢
        omega
      · simpa [LoopResult.server, inFlight] using h
    · simpa [LoopResult.server, inFlight] using h
  | Jamming c p =>
    simp only [stepOnce]
    split
    · split
      · simp only [LoopResult.server, inFlight, ServerStatistics.addDropped] at h ⊢
        simp at h ⊢
        omega
      · simpa [LoopResult.server, inFlight] using h
    · simpa [LoopResult.server, inFlight] using h
  | Waiting c w p =>
    simp only [stepOnce]
    split
    · simpa [LoopResult.server, inFlight] using h
    · simpa [LoopResult.server, inFlight] using h

/-- The whole Server::tick loop preserves the conservation equation. -/
theorem loopGo_conserved (medium : Medium) :
    ∀ (fuel : Nat) (s : Server) (lstate : List Bool), conserved s →
      conserved (loopGo fuel medium s lstate).1 := by
  intro fuel
  induction fuel with
  | zero => intro s l h; exact h
  | succ fuel ih =>
    intro s l h
    have hpres := stepOnce_conserved medium s l h
    rw [loopGo]
    cases hso : stepOnce medium s l with
    | go s' l' =>
      rw [hso] at hpres
      exact ih s' l' hpres
    | stop s' l' => rw [hso] at hpres; exact hpres
    | out s' l' p => rw [hso] at hpres; exact hpres

/-- One call of Server.tick preserves the conservation equation. -/
theorem tick_conserved (s : Server) (lstate : List Bool) (medium : Medium)
    (t : Nat) (h : conserved s) : conserved (s.tick lstate medium t).1 := by
  simp only [Server.tick]
  apply loopGo_conserved
  cases hgp : (s.client.tick t).2 with
  | none => simpa [applyGenerated, conserved] using h
  | some p =>
    obtain ⟨i, cl, q, res, stats, st, pers, psp, rtr, rnd, ri⟩ := s
    obtain ⟨sp, sg, sd⟩ := stats
    simp only [applyGenerated, conserved, ServerStatistics.addGenerated,
      List.length_append] at h ⊢
    simp at h ⊢
    omega

/-- Conservation holds at every tick boundary of a station run. -/
theorem stationRunFrom_conserved (med : Nat → Medium) :
    ∀ (k t : Nat) (s : Server), conserved s → conserved (stationRunFrom med t k s) := by
  intro k
  induction k with
  | zero => intro t s h; exact h
  | succ k ih =>
    intro t s h
    rw [stationRunFrom_succ]
    exact ih (t + 1) _ (tick_conserved s _ (med t) t h)

/-- C7: every call to Server::tick preserves the conservation equation
packets_generated = packets_processed + packets_dropped + queued + in-flight
(the arrival half adds one to both sides; every loop arm moves the packet
between the queue, the in-flight slot and the terminal counters), and hence
the equation holds at every tick boundary of any driver-presented run. -/
theorem c7_packet_conservation (s : Server) (lstate : List Bool) (medium : Medium)
    (t : Nat) (h : conserved s) :
    conserved (s.tick lstate medium t).1 ∧
    (∀ (med : Nat → Medium) (t0 k : Nat), conserved (stationRunFrom med t0 k s)) :=
  ⟨tick_conserved s lstate medium t h,
   fun med t0 k => stationRunFrom_conserved med k t0 s h⟩

/-- Witness for C7 at a concrete fresh server and medium: the equation holds
before the call, after one call, and after a three-tick run. -/
theorem c7_packet_conservation_witness :
    conserved c7s0 ∧ conserved ((c7s0.tick [false, false] (Medium.new 2 26) 0).1) ∧
      conserved (stationRunFrom (fun _ => Medium.new 2 26) 0 3 c7s0) :=
  ⟨rfl, (c7_packet_conservation c7s0 [false, false] (Medium.new 2 26) 0 rfl).1,
   (c7_packet_conservation c7s0 [false, false] (Medium.new 2 26) 0 rfl).2
     (fun _ => Medium.new 2 26) 0 3⟩

/-- getD after set at the same in-range index returns the new element. -/
theorem getD_set_self {α : Type} :
    ∀ (l : List α) (i : Nat) (a d : α), i < l.length → (l.set i a).getD i d = a := by
  intro l
  induction l with
  | nil => intro i a d h; simp at h
  | cons x xs ih =>
    intro i a d h
    cases i with
    | zero => rfl
    | succ j =>
      simp only [List.set_cons_succ, List.getD_cons_succ]
      exact ih j a d (by simpa using h)

/-- The pointwise conjunction of two bitmaps has a set bit exactly when some
in-range position is set in both. -/
theorem any_zipWith_and :
    ∀ (xs ys : List Bool),
      ((List.zipWith (fun a b => a && b) xs ys).any (fun b => b) = true ↔
        ∃ k, k < xs.length ∧ k < ys.length ∧
          xs.getD k false = true ∧ ys.getD k false = true) := by
  intro xs
  induction xs with
  | nil => intro ys; simp
  | cons x xs ih =>
    intro ys
    cases ys with
    | nil => simp
    | cons y ys =>
      simp only [List.zipWith_cons_cons, List.any_cons, Bool.or_eq_true, Bool.and_eq_true, ih]
      constructor
      · rintro (⟨hx, hy⟩ | ⟨k, hk1, hk2, hk3, hk4⟩)
        · exact ⟨0, by simp, by simp, by simpa using hx, by simpa using hy⟩
        · exact ⟨k + 1, by simpa using hk1, by simpa using hk2, by simpa using hk3,
            by simpa using hk4⟩
      · rintro ⟨k, hk1, hk2, hk3, hk4⟩
        cases k with
        | zero =>
          left
          exact ⟨by simpa using hk3, by simpa using hk4⟩
        | succ j =>
          right
          exact ⟨j, by simpa using hk1, by simpa using hk2, by simpa using hk3,
            by simpa using hk4⟩

/-- The is_busy mask at an in-range position k reads as the test k ≠ i. -/
theorem getD_mask (n i k : Nat) (hk : k < n) :
    (((List.range n).map fun j => decide (j ≠ i)).getD k false) = decide (k ≠ i) := by
  rw [List.getD_eq_getElem?_getD, List.getElem?_map, List.getElem?_range hk]
  rfl

/-- C8: writing bitmap B into the medium and reading is_busy(i) before any
tick is the masked any over B: true exactly when some bit j ≠ i is set in B;
and the answer depends only on B, i and the station count, not on the rest of
the medium. -/
theorem c8_write_is_busy_spec (m : Medium) (B : List Bool) (i : Nat)
    (hlen : B.length = m.num_nodes) (hidx : m.tracks.idx < m.tracks.vec.length) :
    ((m.write B).is_busy i = true ↔
      ∃ j, j < m.num_nodes ∧ j ≠ i ∧ B.getD j false = true) ∧
    (∀ m2 : Medium, m2.num_nodes = m.num_nodes →
      m2.tracks.idx < m2.tracks.vec.length →
      (m2.write B).is_busy i = (m.write B).is_busy i) := by
  have key : ∀ m' : Medium, m'.num_nodes = m.num_nodes →
      m'.tracks.idx < m'.tracks.vec.length →
      ((m'.write B).is_busy i = true ↔
        ∃ j, j < m.num_nodes ∧ j ≠ i ∧ B.getD j false = true) := by
    intro m' hn hidx'
    unfold Medium.write Medium.is_busy CircularBuffer.write CircularBuffer.read
    simp only
    rw [getD_set_self _ _ _ _ (by simpa using hidx')]
    rw [any_zipWith_and]
    constructor
    · rintro ⟨k, hk1, hk2, hk3, hk4⟩
      have hkn : k < m.num_nodes := by
        rw [List.length_map, List.length_range] at hk1
        omega
      refine ⟨k, hkn, ?_, hk4⟩
      rw [getD_mask m'.num_nodes i k (by omega)] at hk3
      simpa using hk3
    · rintro ⟨j, hj1, hj2, hj3⟩
      refine ⟨j, ?_, ?_, ?_, hj3⟩
      · rw [List.length_map, List.length_range]; omega
      · omega
      · rw [getD_mask m'.num_nodes i j (by omega)]
        simpa using hj2
  refine ⟨key m rfl hidx, ?_⟩
  intro m2 hn2 hidx2
  have h1 := key m2 hn2 hidx2
  have h2 := key m rfl hidx
  cases hb : (m.write B).is_busy i with
  | true => rw [h1.2 (h2.1 hb)]
  | false =>
    cases hb2 : (m2.write B).is_busy i with
    | true =>
      have := h2.2 (h1.1 hb2)
      rw [hb] at this
      exact this.symm
    | false => rfl

/-- Witness for C8 at a concrete medium, bitmap and station. -/
theorem c8_write_is_busy_spec_witness :
    (((Medium.new 4 2).write [true, false, false, false]).is_busy 3 = true ↔
      ∃ j, j < (Medium.new 4 2).num_nodes ∧ j ≠ 3 ∧
        [true, false, false, false].getD j false = true) ∧
    (((Medium.new 4 2).write [true, false, false, false]).is_busy 3 = true) :=
  ⟨(c8_write_is_busy_spec (Medium.new 4 2) [true, false, false, false] 3
      (by decide) (by decide)).1,
   by decide⟩

/-- A client whose ticker is zero at entry emits a packet at once, reseeding
the ticker from the generator. -/
theorem Client.tick_at_zero (c : Client) (t : Nat) (h : c.ticker = 0) :
    c.tick t = ({ c with ticker := c.gen c.gidx, gidx := c.gidx + 1 },
      some { time_generated := t, length := c.packet_length }) := by
  simp [Client.tick, h]

/-- Under an all-zero generator stream, every call keeps the ticker at zero,
keeps the stream, and emits exactly one packet. -/
theorem clientRun_zero_stream (c : Client) (hg : ∀ i, c.gen i = 0) (h0 : c.ticker = 0) :
    ∀ k, (clientRun c k).1.ticker = 0 ∧ (clientRun c k).1.gen = c.gen ∧
      (clientRun c k).2 = k := by
  intro k
  induction k with
  | zero => exact ⟨h0, rfl, rfl⟩
  | succ k ih =>
    obtain ⟨h1, h2, h3⟩ := ih
    simp only [clientRun]
    rw [Client.tick_at_zero (clientRun c k).1 k h1]
    refine ⟨?_, ?_, ?_⟩
    · simp [h2, hg]
    · simpa using h2
    · simpa using h3

/-- C10: Client::tick returns at most one packet per call by construction
(its return type is an option); a zero ticker at entry emits a packet
immediately in that call; and under an arrival stream that returns delay 0 on
every draw, k consecutive calls emit exactly k packets — one per call, never
more. -/
theorem c10_client_single_packet (c : Client) (t : Nat) :
    (c.ticker = 0 →
      (c.tick t).2 = some { time_generated := t, length := c.packet_length }) ∧
    ((∀ i, c.gen i = 0) → c.ticker = 0 → ∀ k, (clientRun c k).2 = k) := by
  constructor
  · intro h0
    rw [Client.tick_at_zero c t h0]
  · intro hg h0 k
    exact (clientRun_zero_stream c hg h0 k).2.2

/-- Witness for C10 at a concrete client: the call at entry emits at once and
five consecutive zero-delay calls emit exactly five packets. -/
theorem c10_client_single_packet_witness :
    ((c10c.tick 3).2 = some { time_generated := 3, length := c10c.packet_length }) ∧
    (clientRun c10c 5).2 = 5 :=
  ⟨(c10_client_single_packet c10c 3).1 rfl,
   (c10_client_single_packet c10c 0).2 (fun _ => rfl) rfl 5⟩

/-- C1 (code evaluated at the failing input): a station in Idle with retries
still 5 from its previous packet pops a fresh packet and enters Sensing, and
retries stays 5 — the Idle arm of Server::tick performs no reset; retries is
written only by Server::new and the two increments. -/
theorem c1_retries_not_reset_on_dequeue :
    (({ cSrv .Idle 5 0 with queue := [cpkt] }.tick [false, false]
        (Medium.new 2 26) 0).1.state = .Sensing 1 false cpkt) ∧
    (({ cSrv .Idle 5 0 with queue := [cpkt] }.tick [false, false]
        (Medium.new 2 26) 0).1.retries = 5) := by
  exact ⟨by decide, by decide⟩

/-- C3 (code evaluated at the failing input): a transmitting station that
detects a collision runs the entire Jamming countdown, the retry increment
and the first Waiting step inside that single call: with retries previously 3
and oracle value 5 it leaves the very same tick already in
Waiting{counter = 1, wait_time = (5 mod 15)*512 = 2560} with retries = 4 — it
never rests in Jamming across a tick boundary and never spends 48 ticks
jamming. -/
theorem c3_jamming_resolves_in_one_call :
    ((cSrv (.Transmitting 0 cpkt) 3 5).tick [false, false]
        ((Medium.new 2 1).write [false, true]) 0).1.state = .Waiting 1 2560 cpkt ∧
    ((cSrv (.Transmitting 0 cpkt) 3 5).tick [false, false]
        ((Medium.new 2 1).write [false, true]) 0).1.retries = 4 := by
  exact ⟨by decide, by decide⟩

/-- C4 (code evaluated at the failing input): a station that starts the call
in Jamming never sets its bit in the local bitmap — the bitmap comes back
[false, false] — because local_state.set appears only in the Transmitting
arm; the jam also resolves entirely within the call (the station ends it in
the next sensing phase with retries = 1). -/
theorem c4_no_bit_during_jamming :
    (((cSrv (.Jamming 48 cpkt) 0 0).tick [false, false]
        (Medium.new 2 1) 0).2.1 = [false, false]) ∧
    (((cSrv (.Jamming 48 cpkt) 0 0).tick [false, false]
        (Medium.new 2 1) 0).1.state = .Sensing 1 false cpkt) ∧
    (((cSrv (.Jamming 48 cpkt) 0 0).tick [false, false]
        (Medium.new 2 1) 0).1.retries = 1) := by
  exact ⟨by decide, by decide, by decide⟩

/-- C5 (counterexample): the backoff draw gen_range(0, 2^retries − 1) has an
exclusive upper bound, so the claimed maximum u = 2^retries − 1 is not a
possible outcome.  Concretely, a station finishing a busy interframe spacing
with retries moving to 1 and oracle value 1 draws u = genRange 1 0 (2^1 − 1)
= 1 mod 1 = 0 (the draw depends on the oracle only through its residue mod
2^retries − 1 = 1, so this input exhausts every draw) and falls through the
zero wait into the next sensing phase, instead of the claimed possible
u = 2^1 − 1 = 1 with wait 512.  The first 64 oracle values all yield 0. -/
theorem c5_counterexample_max_backoff_impossible :
    genRange 1 0 (2 ^ 1 - 1) = 0 ∧
    (((List.range 64).map (fun r => genRange r 0 (2 ^ 1 - 1))).all
      (fun u => decide (u = 0)) = true) ∧
    ((cSrv (.Sensing 96 true cpkt) 0 1).tick [false, false]
        (Medium.new 2 1) 0).1.state = .Sensing 1 false cpkt := by
  exact ⟨rfl, by decide, by decide⟩

/-- C5 (amended): in non-persistent mode the backoff wait equals u * 512 with
u drawn uniformly from the inclusive range [0, 2^retries − 2].  Shown for a
station finishing a busy interframe spacing with retries moving to 2: every
u ≤ 2^2 − 2 is attainable and determines the end state (u = 0 falls straight
through the zero wait into the next sensing phase), every draw is at most
2^2 − 2, and every value up to 2^2 − 2 is realised by some oracle value. -/
theorem c5_backoff_range_exclusive (u : Nat) (hu : u ≤ 2 ^ 2 - 2) :
    (((cSrv (.Sensing 96 true cpkt) 1 u).tick [false, false]
        (Medium.new 2 1) 0).1.state =
      (if u = 0 then .Sensing 1 false cpkt else .Waiting 1 (u * 512) cpkt)) ∧
    (∀ r : Nat, genRange r 0 (2 ^ 2 - 1) ≤ 2 ^ 2 - 2) ∧
    (∀ v, v ≤ 2 ^ 2 - 2 → ∃ r, genRange r 0 (2 ^ 2 - 1) = v) := by
  refine ⟨?_, ?_, ?_⟩
  · interval_cases u
    · exact by decide
    · exact by decide
    · exact by decide
  · intro r
    simp only [genRange]
    omega
  · intro v hv
    exact ⟨v, by simp only [genRange]; omega⟩

/-- Witness for C5 (amended) at the maximal attainable draw u = 2. -/
theorem c5_backoff_range_exclusive_witness :
    (((cSrv (.Sensing 96 true cpkt) 1 2).tick [false, false]
        (Medium.new 2 1) 0).1.state =
      (if 2 = 0 then ServerState.Sensing 1 false cpkt
        else .Waiting 1 (2 * 512) cpkt)) ∧
    (∀ r : Nat, genRange r 0 (2 ^ 2 - 1) ≤ 2 ^ 2 - 2) ∧
    (∀ v, v ≤ 2 ^ 2 - 2 → ∃ r, genRange r 0 (2 ^ 2 - 1) = v) :=
  c5_backoff_range_exclusive 2 (by decide)

/-- C6 (code evaluated at the failing input): running station 0 of the
retry-exhaustion scenario (spec scenario 3: fresh 1-persistent station, one
queued packet, a peer keeping the medium busy at every sensed tick) for 1057
ticks ends with the packet dropped and the station Idle with retries = 11;
three ticks later retries is still 11 — the value persists across tick
boundaries instead of occurring only transiently within one step, because no
code path ever resets retries. -/
theorem c6_retries_exceeds_bound :
    ((stationRun (fun _ => busyMed) c6s0 1057).retries = 11 ∧
     (stationRun (fun _ => busyMed) c6s0 1057).state = .Idle ∧
     (stationRun (fun _ => busyMed) c6s0 1057).statistics.packets_dropped = 1) ∧
    ((stationRun (fun _ => busyMed) c6s0 1060).retries = 11 ∧
     (stationRun (fun _ => busyMed) c6s0 1060).state = .Idle) := by
  simp only [stationRun]
  rw [c6run1057, c6run1060]
  exact ⟨⟨rfl, rfl, rfl⟩, rfl, rfl⟩

/-- Witness for C9 at a concrete station and silent medium: mid-phase (50
calls) the station is still sensing, and after the 97th call it is
transmitting. -/
theorem c9_ifs_full_sense_witness :
    (stationRun (fun _ => Medium.new 2 26) c9s0 50).state = .Sensing 50 false c9p ∧
    (stationRun (fun _ => Medium.new 2 26) c9s0 97).state =
      .Transmitting (c9s0.pspeed / c9s0.resolution) c9p := by
  have h := c9_ifs_full_sense (fun _ => Medium.new 2 26) c9s0 c9p [] rfl rfl
    (by decide)
  have h2 := h.2 (by decide)
  exact ⟨h2.1 50 (by decide) (by decide),
    h2.2 (by decide) (by with_unfolding_all decide)⟩
